import Mathlib

/-!
# Verification of the persistence / entitlement / cart core of the
# `lxckkyz.github.io` demo applications

This file shallowly embeds the core logic of the repository's JavaScript
source (`app.js`, several near-duplicate variants) in Lean 4 and proves the
behavioural claims of the specification against it.

Modelling conventions:
* JavaScript numbers are modelled as `ℚ` (all arithmetic performed by the
  source on the relevant paths is exact), `Math.round` as Mathlib's `round`
  (both round halves toward `+∞`), `Math.max` as `max`.
* `Date.now()` / `new Date().toISOString()` values are passed in as
  parameters.
* DOM reads are function parameters, DOM writes / message display are
  dropped; the result of a `confirm()` dialog and of the simulated payment
  outcome (`Math.random() < 0.85`) are Boolean parameters.
* The host's `JSON.parse` is modelled by a small executable JSON parser
  (`parseJson`) that can fail, mirroring `SyntaxError` by `Option.none`.
* Exceptions that propagate to the caller are modelled by `Except.error`.
-/

namespace LojaVerify

/-! ## JSON documents and a model of the host `JSON.parse` -/

/-- JSON values, as produced by the host `JSON.parse`. Numbers are `ℚ`. -/
inductive Json where
  | null : Json
  | bool (b : Bool) : Json
  | num (q : ℚ) : Json
  | str (s : String) : Json
  | arr (elems : List Json) : Json
  | obj (fields : List (String × Json)) : Json

/-- JSON whitespace skipping. -/
def skipWs : List Char → List Char
  | [] => []
  | c :: cs => if c = ' ' ∨ c = '\t' ∨ c = '\n' ∨ c = '\r' then skipWs cs else c :: cs

/-- Characters of a string literal after the opening quote (escape sequences
are outside the modelled subset and make the parse fail). -/
def parseStrChars : List Char → Option (List Char × List Char)
  | [] => none
  | c :: cs =>
    if c = '"' then some ([], cs)
    else if c = '\\' then none
    else (parseStrChars cs).map (fun p => (c :: p.1, p.2))

/-- Longest digit prefix. -/
def takeDigits : List Char → (List Char × List Char)
  | [] => ([], [])
  | c :: cs =>
    if c.isDigit then
      let p := takeDigits cs
      (c :: p.1, p.2)
    else ([], c :: cs)

def digitsToNat (ds : List Char) : Nat :=
  ds.foldl (fun n c => 10 * n + (c.toNat - 48)) 0

/-- JSON number: optional minus, digits, optional fraction. -/
def parseNumber (cs : List Char) : Option (ℚ × List Char) :=
  let p := match cs with
    | '-' :: r => (true, r)
    | _ => (false, cs)
  let d := takeDigits p.2
  if d.1 = [] then none
  else
    let intPart : ℚ := (digitsToNat d.1 : ℚ)
    match d.2 with
    | '.' :: cs3 =>
      let f := takeDigits cs3
      if f.1 = [] then none
      else
        let q := intPart + (digitsToNat f.1 : ℚ) / ((10 : ℚ) ^ f.1.length)
        some (if p.1 then -q else q, f.2)
    | rest => some (if p.1 then -intPart else intPart, rest)

mutual

/-- Fuel-indexed JSON value parser (the fuel strictly exceeds any possible
recursion depth when called through `parseJson`). -/
def parseVal : Nat → List Char → Option (Json × List Char)
  | 0, _ => none
  | fuel + 1, cs =>
    match skipWs cs with
    | [] => none
    | c :: rest =>
      if c = '"' then (parseStrChars rest).map (fun p => (.str (String.mk p.1), p.2))
      else if c = '[' then
        match skipWs rest with
        | ']' :: r => some (.arr [], r)
        | r =>
          match parseElems fuel r with
          | some p => some (.arr p.1, p.2)
          | none => none
      else if c = '{' then
        match skipWs rest with
        | '}' :: r => some (.obj [], r)
        | r =>
          match parseMembers fuel r with
          | some p => some (.obj p.1, p.2)
          | none => none
      else if c = 't' then
        match rest with
        | 'r' :: 'u' :: 'e' :: r => some (.bool true, r)
        | _ => none
      else if c = 'f' then
        match rest with
        | 'a' :: 'l' :: 's' :: 'e' :: r => some (.bool false, r)
        | _ => none
      else if c = 'n' then
        match rest with
        | 'u' :: 'l' :: 'l' :: r => some (.null, r)
        | _ => none
      else (parseNumber (c :: rest)).map (fun p => (.num p.1, p.2))

/-- One-or-more comma-separated array elements followed by `]`. -/
def parseElems : Nat → List Char → Option (List Json × List Char)
  | 0, _ => none
  | fuel + 1, cs =>
    match parseVal fuel cs with
    | none => none
    | some (v, rest) =>
      match skipWs rest with
      | ',' :: r =>
        match parseElems fuel r with
        | none => none
        | some (vs, r2) => some (v :: vs, r2)
      | ']' :: r => some ([v], r)
      | _ => none

/-- One-or-more object members followed by `}`. -/
def parseMembers : Nat → List Char → Option (List (String × Json) × List Char)
  | 0, _ => none
  | fuel + 1, cs =>
    match skipWs cs with
    | '"' :: r =>
      match parseStrChars r with
      | none => none
      | some (key, r1) =>
        match skipWs r1 with
        | ':' :: r2 =>
          match parseVal fuel r2 with
          | none => none
          | some (v, r3) =>
            match skipWs r3 with
            | ',' :: r4 =>
              match parseMembers fuel r4 with
              | none => none
              | some (ms, r5) => some ((String.mk key, v) :: ms, r5)
            | '}' :: r4 => some ([(String.mk key, v)], r4)
            | _ => none
        | _ => none
    | _ => none

end

/-- Model of the host `JSON.parse`: `none` stands for a thrown
`SyntaxError`. -/
def parseJson (s : String) : Option Json :=
  let cs := s.toList
  match parseVal (cs.length + 1) cs with
  | some (v, rest) =>
    match skipWs rest with
    | [] => some v
    | _ => none
  | none => none

/-! ## Admin variants: plans, entitlement resolution, user creation

Embedded from the first admin variant of `app.js` (and the literally
identical duplicates in the second variant / `part_000` where noted). -/

/-- A pricing `Plan` (`{id, name, value, unit}`, `app.js:41-45`, `755`).
`id` is a `Date.now()` millisecond count, hence `Nat`. -/
structure Plan where
  id : Nat
  name : String
  value : ℚ
  unit : String
  deriving DecidableEq, Repr

/-- Embeds `CentralApp.convertPlanToMinutes` (`app.js:682-692`; the copy at
`app.js:1336-1346` is textually identical).  The `switch` is an equality
chain on the unit string; `Number(plan.value) || 0` is the identity on the
`ℚ` model (no `NaN`); `Math.round` is `round`, `Math.max` is `max`. -/
def convertPlanToMinutes (plan : Plan) : ℤ :=
  let v : ℚ := plan.value
  if plan.unit = "minutes" then max 1 (round v)
  else if plan.unit = "hours" then max 1 (round (v * 60))
  else if plan.unit = "days" then max 1 (round (v * 24 * 60))
  else if plan.unit = "weeks" then max 1 (round (v * 7 * 24 * 60))
  else if plan.unit = "months" then max 1 (round (v * 30 * 24 * 60))
  else max 1 (round v)

/-- Modelled from the spec's words (§3): the per-unit factor table
`{1, 60, 1440, 10080, 43200}`, unknown units falling back to the
`minutes` factor `1`.  Used only to compare the spec against
`convertPlanToMinutes`. -/
def unitFactor (u : String) : ℚ :=
  if u = "minutes" then 1
  else if u = "hours" then 60
  else if u = "days" then 1440
  else if u = "weeks" then 10080
  else if u = "months" then 43200
  else 1

/-- Modelled from the spec's words (§3):
`convertToMinutes(plan) = max(1, round(value * unitFactor))`. -/
def convertToMinutesSpec (plan : Plan) : ℤ :=
  max 1 (round (plan.value * unitFactor plan.unit))

/-- Embeds the allowance-resolution prefix of `CentralApp.handleCreateUser`
(`app.js:429-451`).  `selectedPlanId` is the `<select>` value (`""` for the
placeholder), `customParsed` is the already-coerced result of
`parseInt(newLoginTime.value) || 0`.  A stale plan id (selection text that
matches no current plan) leaves `loginTime` at its initialiser `0`, exactly
as in the source. -/
def resolveAllowance (plans : List Plan) (selectedPlanId : String) (customParsed : ℤ) :
    Except String ℤ :=
  if selectedPlanId = "" then .error "Selecione um plano para o usuário."
  else if selectedPlanId = "custom" then
    if customParsed < 1 then .error "Tempo custom deve ser pelo menos 1 minuto."
    else .ok customParsed
  else
    match plans.find? (fun p => toString p.id == selectedPlanId) with
    | some plan => .ok (convertPlanToMinutes plan)
    | none => .ok 0

/-- A stored `User` record (`app.js:484-491`). -/
structure UserRec where
  id : Nat
  username : String
  password : String
  loginTime : ℤ
  createdAt : String
  isAdmin : Bool
  deriving DecidableEq, Repr

/-- The in-memory admin-variant state (`AppState`): the `users` and `plans`
collections and the session principal. -/
structure AdminState where
  users : List UserRec
  plans : List Plan
  currentUser : Option UserRec
  deriving DecidableEq, Repr

/-- `this.state.currentUser && this.state.currentUser.isAdmin`. -/
def adminLogado (s : AdminState) : Bool :=
  match s.currentUser with
  | some u => u.isAdmin
  | none => false

/-- `String.prototype.trim()`: strip leading and trailing whitespace
(executable model of the host trim). -/
def jsTrim (s : String) : String :=
  String.mk (((s.toList.dropWhile Char.isWhitespace).reverse.dropWhile
    Char.isWhitespace).reverse)

/-- The form fields read by `handleCreateUser`: raw username (the handler
trims it), raw password, the plan `<select>` value and the coerced custom
minute count (`parseInt(...) || 0`). -/
structure CreateInput where
  username : String
  password : String
  selectedPlanId : String
  customParsed : ℤ
  deriving DecidableEq, Repr

inductive CreateResult where
  | success
  | failure (msg : String)
  deriving DecidableEq, Repr

/-- Embeds `CentralApp.handleCreateUser` (`app.js:425-508`): plan/custom
resolution, admin gate, length checks, case-sensitive duplicate check, then
push-and-persist.  `now` models `Date.now()`, `nowIso` the ISO creation
timestamp.  Every failing branch returns without touching the state. -/
def handleCreateUser (s : AdminState) (input : CreateInput) (now : Nat) (nowIso : String) :
    CreateResult × AdminState :=
  match resolveAllowance s.plans input.selectedPlanId input.customParsed with
  | .error e => (.failure e, s)
  | .ok loginTime =>
    if !adminLogado s then
      (.failure "Apenas administradores podem criar usuários.", s)
    else if (jsTrim input.username).length < 3 then
      (.failure "Usuário deve ter pelo menos 3 caracteres!", s)
    else if input.password.length < 4 then
      (.failure "Senha deve ter pelo menos 4 caracteres!", s)
    else if s.users.any (fun u => u.username == jsTrim input.username) then
      (.failure "Este usuário já existe!", s)
    else
      (.success,
       { s with users := s.users ++
           [{ id := now, username := jsTrim input.username, password := input.password,
              loginTime := loginTime, createdAt := nowIso, isAdmin := false }] })

/-- A sequence of `handleCreateUser` calls (each with its own clock values),
keeping only the resulting states. -/
def runCreates (s : AdminState) : List (CreateInput × Nat × String) → AdminState
  | [] => s
  | (i, now, iso) :: rest => runCreates (handleCreateUser s i now iso).2 rest

/-- No two users share a username. -/
def distinctUsernames (users : List UserRec) : Prop :=
  users.Pairwise (fun a b => a.username ≠ b.username)

instance (users : List UserRec) : Decidable (distinctUsernames users) := by
  unfold distinctUsernames; infer_instance

inductive DeleteResult where
  | authError (msg : String)
  | cancelled
  | deleted
  deriving DecidableEq, Repr

/-- Embeds the role-gated `CentralApp.deletePlan` of the first admin variant
(`app.js:857-867`): admin gate, `confirm()` gate, then filter-and-persist.
`confirmed` models the `confirm()` dialog result. -/
def deletePlanGated (s : AdminState) (id : Nat) (confirmed : Bool) :
    DeleteResult × AdminState :=
  if !adminLogado s then
    (.authError "Apenas administradores podem deletar planos.", s)
  else if !confirmed then (.cancelled, s)
  else (.deleted, { s with plans := s.plans.filter (fun p => p.id != id) })

/-- Embeds `CentralApp.deletePlan` of the second admin variant
(`app.js:1415-1421`): it performs no role check at all — only the
`confirm()` gate — before filtering and persisting. -/
def deletePlanUngated (s : AdminState) (id : Nat) (confirmed : Bool) :
    DeleteResult × AdminState :=
  if !confirmed then (.cancelled, s)
  else (.deleted, { s with plans := s.plans.filter (fun p => p.id != id) })

/-- Embeds `AppState.getDefaultUsers` (`app.js:17-28`) as the JSON document
the defaults serialise to; `now` models `new Date().toISOString()`. -/
def getDefaultUsers (now : String) : Json :=
  .arr [.obj [("id", .num 1), ("username", .str "admin"),
              ("password", .str "admin123"), ("loginTime", .num 60),
              ("createdAt", .str now), ("isAdmin", .bool true)]]

/-- Embeds `AppState.loadUserData` (`app.js:9-15`):
`stored ? JSON.parse(stored) : this.getDefaultUsers()`.  `stored = none`
models an absent key, the empty string is falsy in JavaScript, and a
`JSON.parse` failure propagates to the caller — modelled by
`Except.error`. -/
def loadUserData (now : String) (stored : Option String) : Except String Json :=
  match stored with
  | none => .ok (getDefaultUsers now)
  | some s =>
    if s = "" then .ok (getDefaultUsers now)
    else
      match parseJson s with
      | some j => .ok j
      | none => .error "SyntaxError: JSON.parse"

/-! ## Shop variant (`LOJA VIRTUAL SEGURA`, `app.js:1501-2780`)

Data model and the operations the claims touch. -/

/-- `appState.configPagamento`. -/
structure ConfigPagamento where
  provedor : String
  stripePublicKey : String
  mercadoPagoPublicKey : String
  deriving DecidableEq, Repr

/-- An inventory `Item` (`app.js:1707-1714`, `2338-2345`). -/
structure Item where
  id : String
  nome : String
  descricao : String
  preco : ℚ
  produtorId : String
  disponivel : Bool
  deriving DecidableEq, Repr

/-- A cart line: the denormalised add-time snapshot
`{ ...item, produtorNome: produtor.nome }` (`app.js:1998`). -/
structure CartLine extends Item where
  produtorNome : String
  deriving DecidableEq, Repr

/-- A `Produtor` with its owned item list (`app.js:1701-1763`, `2278-2283`). -/
structure Produtor where
  id : String
  nome : String
  email : String
  listaDeItens : List Item
  deriving DecidableEq, Repr

/-- An `Order`/`Pedido` snapshot (`app.js:2196-2207`). -/
structure Pedido where
  id : String
  usuarioId : String
  usuarioNome : String
  usuarioEmail : String
  itens : List CartLine
  total : ℚ
  data : String
  status : String
  endereco : String
  cidade : String
  deriving DecidableEq, Repr

/-- A shop `Usuario` (`app.js:1848-1855`).  The admin account carries no
`pedidos` field in the source; it is modelled as `[]` (the source guards
its only use with `|| []`). -/
structure Usuario where
  id : String
  nome : String
  email : String
  senhaHash : String
  role : String
  pedidos : List String
  deriving DecidableEq, Repr

/-- The fields of the global `appState` object (`app.js:1530-1538`), which
is also exactly what `salvarDados` serialises to storage. -/
structure ShopCore where
  usuarioLogado : Option Usuario
  carrinho : List CartLine
  produtores : List Produtor
  usuarios : List Usuario
  pedidos : List Pedido
  admin : Option Usuario
  configPagamento : ConfigPagamento
  deriving DecidableEq, Repr

/-- The in-memory `appState` plus the persisted copy under
`STORAGE_KEY` (the JSON round-trip through `localStorage` is modelled as
the identity on `ShopCore`). -/
structure ShopState extends ShopCore where
  stored : ShopCore
  deriving DecidableEq, Repr

/-- Embeds `salvarDados` (`app.js:1637-1644`): persist the whole in-memory
`appState`. -/
def salvarDados (s : ShopState) : ShopState :=
  { s with stored := s.toShopCore }

/-- `&`, `<` and `>` are the characters a DOM text node escapes when read
back through `innerHTML`; this is what `sanitizar` (`app.js:1548-1554`)
computes. -/
def escapeChar (c : Char) : List Char :=
  if c = '&' then "&amp;".toList
  else if c = '<' then "&lt;".toList
  else if c = '>' then "&gt;".toList
  else [c]

/-- Embeds `sanitizar` (`app.js:1548-1554`). -/
def sanitizar (s : String) : String :=
  String.mk (s.toList.flatMap escapeChar)

/-- `[^\s@]`: neither whitespace nor `@`. -/
def isEmailChar (c : Char) : Bool := !c.isWhitespace && c != '@'

/-- Embeds `validarEmail` (`app.js:1559-1562`), the regex
`^[^\s@]+@[^\s@]+\.[^\s@]+$`: a nonempty `@`-free, whitespace-free local
part, one `@`, and a domain that is nonempty, whitespace- and `@`-free and
contains a dot that is neither its first nor its last character.  JS `\s`
is modelled by `Char.isWhitespace`. -/
def validarEmail (email : String) : Bool :=
  let cs := email.toList
  let parteLocal := cs.takeWhile (fun c => c != '@')
  match cs.dropWhile (fun c => c != '@') with
  | [] => false
  | _ :: domain =>
    !parteLocal.isEmpty && parteLocal.all isEmailChar &&
    !domain.isEmpty && domain.all isEmailChar &&
    ((domain.drop 1).dropLast.contains '.')

/-- Embeds `hashSenhaSimples`'s 32-bit wrap (`hash = hash & hash`). -/
def toInt32 (n : ℤ) : ℤ := (n + 2 ^ 31) % 2 ^ 32 - 2 ^ 31

def base36Char (n : Nat) : Char :=
  if n < 10 then Char.ofNat (48 + n) else Char.ofNat (87 + n)

def natToBase36Aux : Nat → Nat → List Char → List Char
  | 0, _, acc => acc
  | _ + 1, 0, acc => acc
  | fuel + 1, n, acc => natToBase36Aux fuel (n / 36) (base36Char (n % 36) :: acc)

/-- `Number.prototype.toString(36)` on a natural number. -/
def natToBase36 (n : Nat) : String :=
  if n = 0 then "0" else String.mk (natToBase36Aux n n [])

/-- Embeds `hashSenhaSimples` (`app.js:1575-1584`):
`hash = ((hash << 5) - hash) + charCode` with 32-bit wrap each step, then
`'hash_' + Math.abs(hash).toString(36)`.  `charCodeAt` agrees with
`Char.toNat` on the BMP strings used here. -/
def hashSenhaSimples (senha : String) : String :=
  let h := senha.toList.foldl (fun h c => toInt32 (toInt32 (h * 32) - h + c.toNat)) 0
  "hash_" ++ natToBase36 h.natAbs

/-- The payload `dados` assembled by `handleCheckoutForm`
(`app.js:2095-2105`). -/
structure DadosCompra where
  nome : String
  email : String
  telefone : String
  endereco : String
  cidade : String
  cep : String
  cartao : String
  validade : String
  cvv : String
  deriving DecidableEq, Repr

inductive Validacao where
  | valido
  | invalido (erro : String)
  deriving DecidableEq, Repr

/-- The `requiredFields` list of `validarDadosCompra` (`app.js:1590`). -/
def requiredFields : List String :=
  ["nome", "email", "telefone", "endereco", "cidade", "cep", "cartao", "validade", "cvv"]

/-- `dados[field]` for the fields `validarDadosCompra` iterates over. -/
def getField (d : DadosCompra) : String → String
  | "nome" => d.nome
  | "email" => d.email
  | "telefone" => d.telefone
  | "endereco" => d.endereco
  | "cidade" => d.cidade
  | "cep" => d.cep
  | "cartao" => d.cartao
  | "validade" => d.validade
  | "cvv" => d.cvv
  | _ => ""

/-- `!dados[field] || dados[field].trim() === ''`: for strings this is
exactly "every character is whitespace". -/
def isBlank (s : String) : Bool := s.toList.all Char.isWhitespace

/-- `/^\d{16}$/.test(cartao.replace(/\s/g, ''))`. -/
def cartaoValido (cartao : String) : Bool :=
  let t := cartao.toList.filter (fun c => !c.isWhitespace)
  t.length == 16 && t.all Char.isDigit

/-- `/^\d{2}\/\d{2}$/.test(validade)`. -/
def validadeValida (validade : String) : Bool :=
  match validade.toList with
  | [a, b, c, d, e] => a.isDigit && b.isDigit && c == '/' && d.isDigit && e.isDigit
  | _ => false

/-- `/^\d{3}$/.test(cvv)`. -/
def cvvValido (cvv : String) : Bool :=
  match cvv.toList with
  | [a, b, c] => a.isDigit && b.isDigit && c.isDigit
  | _ => false

/-- Embeds `validarDadosCompra` (`app.js:1589-1609`): a first-fail loop over
`requiredFields`, then the email, card, expiry and CVV checks in source
order. -/
def validarDadosCompra (d : DadosCompra) : Validacao :=
  match requiredFields.find? (fun f => isBlank (getField d f)) with
  | some f => .invalido ("Campo " ++ f ++ " obrigatório")
  | none =>
    if !validarEmail d.email then .invalido "Email inválido"
    else if !cartaoValido d.cartao then .invalido "Número de cartão inválido (16 dígitos)"
    else if !validadeValida d.validade then .invalido "Validade inválida (MM/AA)"
    else if !cvvValido d.cvv then .invalido "CVV inválido (3 dígitos)"
    else .valido

/-- Modelled from the spec's words (§4.4): the ordered list of checkout
checks, each paired with its error message. -/
def checkoutChecks (d : DadosCompra) : List (Bool × String) :=
  requiredFields.map (fun f => (!isBlank (getField d f), "Campo " ++ f ++ " obrigatório"))
    ++ [(validarEmail d.email, "Email inválido"),
        (cartaoValido d.cartao, "Número de cartão inválido (16 dígitos)"),
        (validadeValida d.validade, "Validade inválida (MM/AA)"),
        (cvvValido d.cvv, "CVV inválido (3 dígitos)")]

/-- Modelled from the spec's words (§4.4): first-fail-wins — the error of
the first failing check, never an aggregate. -/
def primeiraFalha (checks : List (Bool × String)) : Validacao :=
  match checks.find? (fun c => !c.1) with
  | some c => .invalido c.2
  | none => .valido

/-! ### Demo data and the loader (`inicializarDadosParaao`, `carregarDados`) -/

/-- The demo admin account (`app.js:1672-1678`). -/
def adminDemo : Usuario :=
  { id := "admin_001", nome := "Administrador", email := "admin@loja.com",
    senhaHash := hashSenhaSimples "admin123", role := "admin", pedidos := [] }

/-- The demo users (`app.js:1681-1698`). -/
def usuariosDemo : List Usuario :=
  [{ id := "user_001", nome := "João Silva", email := "joao@example.com",
     senhaHash := hashSenhaSimples "senha123", role := "user", pedidos := [] },
   { id := "user_002", nome := "Maria Santos", email := "maria@example.com",
     senhaHash := hashSenhaSimples "senha456", role := "user", pedidos := [] }]

/-- The demo producers and their stock (`app.js:1701-1763`). -/
def produtoresDemo : List Produtor :=
  [{ id := "produtor_001", nome := "Fazenda Orgânica Verde",
     email := "contato@fazendaverde.com",
     listaDeItens :=
       [{ id := "item_001", nome := "Maçã Orgânica",
          descricao := "Maçã vermelha fresca, colheita do mês",
          preco := 25 / 2, produtorId := "produtor_001", disponivel := true },
        { id := "item_002", nome := "Cenoura Orgânica",
          descricao := "Cenoura doce e crocante",
          preco := 8, produtorId := "produtor_001", disponivel := true }] },
   { id := "produtor_002", nome := "Laticínios Naturais",
     email := "vendas@lacticinionaturais.com",
     listaDeItens :=
       [{ id := "item_003", nome := "Queijo Meia Cura",
          descricao := "Queijo artesanal, 500g",
          preco := 35, produtorId := "produtor_002", disponivel := true },
        { id := "item_004", nome := "Leite Integral",
          descricao := "Leite fresco, 1 litro",
          preco := 13 / 2, produtorId := "produtor_002", disponivel := true }] },
   { id := "produtor_003", nome := "Café Artesanal", email := "cafe@artesanal.com",
     listaDeItens :=
       [{ id := "item_005", nome := "Café Expresso",
          descricao := "Café 100% arábica, 250g",
          preco := 28, produtorId := "produtor_003", disponivel := true }] }]

/-- Embeds `inicializarDadosParaao` (`app.js:1670-1780`): the generated
default document. -/
def inicializarDadosParaao : ShopCore :=
  { usuarioLogado := none, carrinho := [], produtores := produtoresDemo,
    usuarios := usuariosDemo, pedidos := [], admin := some adminDemo,
    configPagamento :=
      { provedor := "stripe", stripePublicKey := "pk_demo_12345",
        mercadoPagoPublicKey := "APP_USER_ID_DEMO" } }

/-- `jsonLookup fields k`: property access `parsed[k]` on a JSON object. -/
def jsonLookup (fields : List (String × Json)) (k : String) : Option Json :=
  (fields.find? (fun p => p.1 == k)).map Prod.snd

/-- `parsed[k] && Array.isArray(parsed[k])` — JS arrays (even empty ones)
are truthy objects, every other present value either fails truthiness or
fails `Array.isArray`. -/
def checaArray (fields : List (String × Json)) (k : String) : Bool :=
  match jsonLookup fields k with
  | some (.arr _) => true
  | _ => false

/-- The structure validation of `carregarDados` (`app.js:1620-1622`):
`usuarios`, `produtores` and `pedidos` must be arrays.  Property access on
a non-object primitive yields `undefined` (and on `null` throws inside the
`try`, which the `catch` turns into a fallback), so any non-object parse
result falls back to the defaults. -/
def temEstruturaValida : Json → Bool
  | .obj fields =>
    checaArray fields "usuarios" && checaArray fields "produtores" &&
      checaArray fields "pedidos"
  | _ => false

/-- The result of `carregarDados`: either the (duck-typed) parsed document
becomes the new `appState`, or `inicializarDadosParaao` runs. -/
inductive LoadOutcome where
  | loaded (doc : Json)
  | defaults (core : ShopCore)

/-- Embeds `carregarDados` (`app.js:1614-1632`): absent key or empty string
(falsy) falls through; a `JSON.parse` throw is caught; a shape-invalid
document falls through; every failure path ends in
`inicializarDadosParaao()`.  The function is total — no error escapes. -/
def carregarDados (stored : Option String) : LoadOutcome :=
  match stored with
  | none => .defaults inicializarDadosParaao
  | some s =>
    if s = "" then .defaults inicializarDadosParaao
    else
      match parseJson s with
      | none => .defaults inicializarDadosParaao
      | some j =>
        if temEstruturaValida j then .loaded j
        else .defaults inicializarDadosParaao

/-- The state right after first load: `carregarDados` finds nothing,
`inicializarDadosParaao` builds the defaults and `salvarDados` persists
them (`app.js:1779`). -/
def initialShopState : ShopState :=
  { toShopCore := inicializarDadosParaao, stored := inicializarDadosParaao }

/-! ### Cart and checkout -/

/-- `appState.usuarioLogado && appState.usuarioLogado.role === 'admin'`
(`app.js:1973-1975`). -/
def usuarioAtualEhAdmin (s : ShopState) : Bool :=
  match s.usuarioLogado with
  | some u => u.role == "admin"
  | none => false

/-- Embeds the item search of `adicionarAoCarrinho` (`app.js:1994-2001`):
per producer, `find` the first item with the id; if it exists and is
available take it (with the denormalised producer name) and stop, otherwise
continue with the next producer. -/
def buscarItemDisponivel : List Produtor → String → Option CartLine
  | [], _ => none
  | p :: rest, itemId =>
    match p.listaDeItens.find? (fun i => i.id == itemId) with
    | some i =>
      if i.disponivel then some { toItem := i, produtorNome := p.nome }
      else buscarItemDisponivel rest itemId
    | none => buscarItemDisponivel rest itemId

/-- Embeds `adicionarAoCarrinho` (`app.js:1985-2018`): requires a logged-in
principal, an available item, and no duplicate cart line. -/
def adicionarAoCarrinho (s : ShopState) (itemId : String) : ShopState :=
  if s.usuarioLogado.isNone then s
  else
    match buscarItemDisponivel s.produtores itemId with
    | none => s
    | some linha =>
      if s.carrinho.any (fun c => c.id == itemId) then s
      else { s with carrinho := s.carrinho ++ [linha] }

/-- Embeds `removerDoCarrinho` (`app.js:2020-2023`). -/
def removerDoCarrinho (s : ShopState) (itemId : String) : ShopState :=
  { s with carrinho := s.carrinho.filter (fun c => c.id != itemId) }

/-- Embeds `calcularTotalCarrinho` (`app.js:2025-2027`). -/
def calcularTotalCarrinho (carrinho : List CartLine) : ℚ :=
  carrinho.foldl (fun total item => total + item.preco) 0

/-- First-match in-place `disponivel = false` on an item list
(`app.js:2213-2217`). -/
def marcarItemIndisponivel : List Item → String → List Item
  | [], _ => []
  | i :: rest, itemId =>
    if i.id == itemId then { i with disponivel := false } :: rest
    else i :: marcarItemIndisponivel rest itemId

/-- The stock update of `finalizarCompraComSucesso` for one cart line
(`app.js:2210-2219`): `find` the first producer with the id, in it `find`
the first item with the id, and mark it unavailable; missing producer or
item is a silent no-op. -/
def marcarIndisponivel : List Produtor → String → String → List Produtor
  | [], _, _ => []
  | p :: rest, produtorId, itemId =>
    if p.id == produtorId then
      { p with listaDeItens := marcarItemIndisponivel p.listaDeItens itemId } :: rest
    else p :: marcarIndisponivel rest produtorId itemId

/-- The stock lookup `produtores.find(p => p.id === produtorId)` followed by
`produtor.listaDeItens.find(i => i.id === itemId)`. -/
def lookupEstoque (ps : List Produtor) (produtorId itemId : String) : Option Item :=
  (ps.find? (fun p => p.id == produtorId)).bind
    (fun p => p.listaDeItens.find? (fun i => i.id == itemId))

/-- Embeds `finalizarCompraComSucesso` (`app.js:2192-2246`).  `u` is the
logged-in principal (`appState.usuarioLogado`, non-null on this path —
the caller supplies it together with the hypothesis
`s.usuarioLogado = some u`), `pid` models `'pedido_' + Date.now()` and
`nowIso` the ISO timestamp.  In the source `usuarioLogado` aliases its
entry in `usuarios`; only the principal's copy is modelled (no claim reads
the `usuarios` copy of the `pedidos` back-references). -/
def finalizarCompraComSucesso (s : ShopState) (u : Usuario) (d : DadosCompra)
    (pid nowIso : String) : ShopState :=
  let novoPedido : Pedido :=
    { id := pid, usuarioId := u.id, usuarioNome := d.nome, usuarioEmail := d.email,
      itens := s.carrinho, total := calcularTotalCarrinho s.carrinho, data := nowIso,
      status := "confirmado", endereco := d.endereco, cidade := d.cidade }
  let produtores' := novoPedido.itens.foldl
    (fun ps item => marcarIndisponivel ps item.produtorId item.id) s.produtores
  let logado' : Option Usuario :=
    if u.role == "user" then some { u with pedidos := u.pedidos ++ [pid] } else some u
  salvarDados
    { s with produtores := produtores', pedidos := s.pedidos ++ [novoPedido],
             usuarioLogado := logado', carrinho := [] }

/-- Embeds `processarPagamento` (`app.js:2122-2145`): the
`Math.random() < 0.85` outcome is the `aprovado` parameter; the decline
branch only displays a message and leaves the state untouched.  (The
`criarPagamentoStripe` / `criarPagamentoMercadoPago` calls only log.) -/
def processarPagamento (s : ShopState) (u : Usuario) (d : DadosCompra)
    (pid nowIso : String) (aprovado : Bool) : ShopState :=
  if aprovado then finalizarCompraComSucesso s u d pid nowIso else s

/-- Embeds `handleCheckoutForm` (`app.js:2092-2116`): validate the
assembled payload, then run the simulated payment. -/
def handleCheckoutForm (s : ShopState) (u : Usuario) (d : DadosCompra)
    (pid nowIso : String) (aprovado : Bool) : ShopState :=
  match validarDadosCompra d with
  | .invalido _ => s
  | .valido => processarPagamento s u d pid nowIso aprovado

/-! ### Session and admin handlers, and the reachable-state relation -/

/-- Embeds `handleLoginForm` (`app.js:1786-1815`): sanitise the email, find
the user, compare hashes, set the principal and persist. -/
def handleLoginForm (s : ShopState) (emailRaw senha : String) : ShopState :=
  if !validarEmail (sanitizar emailRaw) then s
  else
    match s.usuarios.find? (fun u => u.email == sanitizar emailRaw) with
    | none => s
    | some u =>
      if u.senhaHash != hashSenhaSimples senha then s
      else salvarDados { s with usuarioLogado := some u }

/-- Embeds `handleRegistroForm` (`app.js:1817-1865`): validations, email
uniqueness, then push the new user, log it in and persist.  `uid` models
`'user_' + Date.now()`. -/
def handleRegistroForm (s : ShopState) (nomeRaw emailRaw senha confirmar uid : String) :
    ShopState :=
  if (sanitizar nomeRaw).isEmpty || (sanitizar nomeRaw).length < 3 then s
  else if !validarEmail (sanitizar emailRaw) then s
  else if senha.length < 6 then s
  else if senha != confirmar then s
  else if s.usuarios.any (fun u => u.email == sanitizar emailRaw) then s
  else
    salvarDados
      { s with
          usuarios := s.usuarios ++
            [{ id := uid, nome := sanitizar nomeRaw, email := sanitizar emailRaw,
               senhaHash := hashSenhaSimples senha, role := "user", pedidos := [] }],
          usuarioLogado := some
            { id := uid, nome := sanitizar nomeRaw, email := sanitizar emailRaw,
              senhaHash := hashSenhaSimples senha, role := "user", pedidos := [] } }

/-- Embeds `handleLoginAdminForm` (`app.js:1867-1894`).  (`appState.admin`
is never `null` in a reachable state; the `none` branch mirrors the
TypeError path as a no-op.) -/
def handleLoginAdminForm (s : ShopState) (emailRaw senha : String) : ShopState :=
  if !validarEmail (sanitizar emailRaw) then s
  else
    match s.admin with
    | none => s
    | some adm =>
      if adm.email != sanitizar emailRaw then s
      else if adm.senhaHash != hashSenhaSimples senha then s
      else salvarDados { s with usuarioLogado := some adm }

/-- Embeds `handleLogout` (`app.js:1896-1902`): clear the principal AND the
cart, then persist. -/
def handleLogout (s : ShopState) : ShopState :=
  salvarDados { s with usuarioLogado := none, carrinho := [] }

/-- Embeds the state-relevant branch of `atualizarUI` (`app.js:2618-2649`):
when no principal is authenticated the cart is emptied. -/
def atualizarUI (s : ShopState) : ShopState :=
  if s.usuarioLogado.isSome then s else { s with carrinho := [] }

/-- Embeds `handleNovoProductorForm` (`app.js:2252-2292`). -/
def handleNovoProductorForm (s : ShopState) (nomeRaw emailRaw pid : String) : ShopState :=
  if !usuarioAtualEhAdmin s then s
  else if (sanitizar nomeRaw).isEmpty || (sanitizar nomeRaw).length < 3 then s
  else if !validarEmail (sanitizar emailRaw) then s
  else if s.produtores.any (fun p => p.email == sanitizar emailRaw) then s
  else
    salvarDados
      { s with produtores :=
          s.produtores ++ [{ id := pid, nome := sanitizar nomeRaw,
                             email := sanitizar emailRaw, listaDeItens := [] }] }

/-- First-match in-place `listaDeItens.push(novoItem)`. -/
def adicionarItemAoProdutor : List Produtor → String → Item → List Produtor
  | [], _, _ => []
  | p :: rest, pid, it =>
    if p.id == pid then { p with listaDeItens := p.listaDeItens ++ [it] } :: rest
    else p :: adicionarItemAoProdutor rest pid it

/-- Embeds `handleNovoItemForm` (`app.js:2309-2355`). -/
def handleNovoItemForm (s : ShopState) (produtorId nomeRaw descricaoRaw : String)
    (preco : ℚ) (iid : String) : ShopState :=
  if !usuarioAtualEhAdmin s then s
  else if (sanitizar nomeRaw).isEmpty || (sanitizar descricaoRaw).isEmpty then s
  else if preco ≤ 0 then s
  else
    match s.produtores.find? (fun p => p.id == produtorId) with
    | none => s
    | some _ =>
      salvarDados
        { s with produtores :=
            (adicionarItemAoProdutor s.produtores produtorId
              { id := iid, nome := sanitizar nomeRaw, descricao := sanitizar descricaoRaw,
                preco := preco, produtorId := produtorId, disponivel := true }) }

/-- Embeds `removerProdutor` (`app.js:2357-2369`). -/
def removerProdutor (s : ShopState) (produtorId : String) (confirmado : Bool) : ShopState :=
  if !usuarioAtualEhAdmin s then s
  else if !confirmado then s
  else salvarDados { s with produtores := s.produtores.filter (fun p => p.id != produtorId) }

/-- First-match in-place `listaDeItens = listaDeItens.filter(...)`. -/
def removerItemDoProdutor : List Produtor → String → String → List Produtor
  | [], _, _ => []
  | p :: rest, pid, iid =>
    if p.id == pid then
      { p with listaDeItens := p.listaDeItens.filter (fun i => i.id != iid) } :: rest
    else p :: removerItemDoProdutor rest pid iid

/-- Embeds `removerItemProdutor` (`app.js:2371-2384`). -/
def removerItemProdutor (s : ShopState) (produtorId itemId : String) : ShopState :=
  if !usuarioAtualEhAdmin s then s
  else
    match s.produtores.find? (fun p => p.id == produtorId) with
    | none => s
    | some _ =>
      salvarDados { s with produtores := removerItemDoProdutor s.produtores produtorId itemId }

/-- Embeds `handleConfigPagamentoForm` (`app.js:2557-2590`): writes to its
own storage key (`PAGAMENTO_CONFIG_KEY`), not the main document. -/
def handleConfigPagamentoForm (s : ShopState) (provedor skRaw mkRaw : String) : ShopState :=
  if !usuarioAtualEhAdmin s then s
  else if provedor.isEmpty then s
  else
    { s with configPagamento :=
        { provedor := provedor,
          stripePublicKey :=
            if (sanitizar skRaw).isEmpty then s.configPagamento.stripePublicKey
            else sanitizar skRaw,
          mercadoPagoPublicKey :=
            if (sanitizar mkRaw).isEmpty then s.configPagamento.mercadoPagoPublicKey
            else sanitizar mkRaw } }

/-- A page reload (`DOMContentLoaded`, `app.js:2668-2739`): `carregarDados`
restores the persisted document (the JSON round-trip of a document that was
written by `salvarDados` is modelled as the identity) and the load handler
then runs `atualizarUI`. -/
def recarregar (s : ShopState) : ShopState :=
  atualizarUI { toShopCore := s.stored, stored := s.stored }

/-- The states the shop application can reach from its first load through
its event handlers. -/
inductive Reachable : ShopState → Prop where
  | init : Reachable initialShopState
  | login (s : ShopState) (e p : String) :
      Reachable s → Reachable (handleLoginForm s e p)
  | registro (s : ShopState) (n e p c uid : String) :
      Reachable s → Reachable (handleRegistroForm s n e p c uid)
  | adminLogin (s : ShopState) (e p : String) :
      Reachable s → Reachable (handleLoginAdminForm s e p)
  | logout (s : ShopState) : Reachable s → Reachable (handleLogout s)
  | addCarrinho (s : ShopState) (iid : String) :
      Reachable s → Reachable (adicionarAoCarrinho s iid)
  | removeCarrinho (s : ShopState) (iid : String) :
      Reachable s → Reachable (removerDoCarrinho s iid)
  | checkout (s : ShopState) (u : Usuario) (d : DadosCompra) (pid nowIso : String)
      (aprovado : Bool) :
      Reachable s → s.usuarioLogado = some u →
      Reachable (handleCheckoutForm s u d pid nowIso aprovado)
  | ui (s : ShopState) : Reachable s → Reachable (atualizarUI s)
  | novoProdutor (s : ShopState) (n e pid : String) :
      Reachable s → Reachable (handleNovoProductorForm s n e pid)
  | novoItem (s : ShopState) (pid n dsc : String) (preco : ℚ) (iid : String) :
      Reachable s → Reachable (handleNovoItemForm s pid n dsc preco iid)
  | rmProdutor (s : ShopState) (pid : String) (c : Bool) :
      Reachable s → Reachable (removerProdutor s pid c)
  | rmItem (s : ShopState) (pid iid : String) :
      Reachable s → Reachable (removerItemProdutor s pid iid)
  | configPag (s : ShopState) (p sk mk : String) :
      Reachable s → Reachable (handleConfigPagamentoForm s p sk mk)
  | reload (s : ShopState) : Reachable s → Reachable (recarregar s)

/-! ## Helper lemmas -/

lemma round_mono_rat {x y : ℚ} (h : x ≤ y) : round x ≤ round y := by
  rw [round_eq, round_eq]
  exact Int.floor_le_floor (by linarith)

lemma convertPlanToMinutes_eq (plan : Plan) :
    convertPlanToMinutes plan = max 1 (round (plan.value * unitFactor plan.unit)) := by
  unfold convertPlanToMinutes unitFactor
  split_ifs <;> ring_nf

lemma one_le_convertPlanToMinutes (plan : Plan) : 1 ≤ convertPlanToMinutes plan := by
  unfold convertPlanToMinutes
  split_ifs <;> exact le_max_left _ _

lemma unitFactor_pos (u : String) : 0 < unitFactor u := by
  unfold unitFactor
  split_ifs <;> norm_num

/-! ## Claims about `convertPlanToMinutes` (C3, C4) -/

/-- **C3**: for every Plan, `convertToMinutes(plan)` equals
`max(1, round(value * unitFactor))` with unit factors
`1, 60, 1440, 10080, 43200` for minutes/hours/days/weeks/months, an unknown
unit falling back to the minutes factor `1`; the function is a pure total
function of its argument. -/
theorem convert_plan_matches_spec_table (plan : Plan) :
    convertPlanToMinutes plan = convertToMinutesSpec plan := by
  rw [convertToMinutesSpec]
  exact convertPlanToMinutes_eq plan

/-- **C4**: for every Plan with positive value the conversion is at least
one minute, and for a fixed unit the conversion is monotone non-decreasing
in the value. -/
theorem convert_ge_one_and_monotone :
    (∀ p : Plan, 0 < p.value → 1 ≤ convertPlanToMinutes p) ∧
    (∀ p q : Plan, p.unit = q.unit → p.value ≤ q.value →
      convertPlanToMinutes p ≤ convertPlanToMinutes q) := by
  constructor
  · intro p _
    exact one_le_convertPlanToMinutes p
  · intro p q hu hv
    rw [convertPlanToMinutes_eq, convertPlanToMinutes_eq, hu]
    exact max_le_max le_rfl
      (round_mono_rat (mul_le_mul_of_nonneg_right hv (le_of_lt (unitFactor_pos q.unit))))

/-- Witness for `convert_ge_one_and_monotone` at the demo weekly plan and a
pair of hourly plans. -/
theorem convert_ge_one_and_monotone_witness :
    1 ≤ convertPlanToMinutes { id := 3, name := "Semanal", value := 1, unit := "weeks" } ∧
    convertPlanToMinutes { id := 5, name := "a", value := 2, unit := "hours" } ≤
      convertPlanToMinutes { id := 6, name := "b", value := 3, unit := "hours" } :=
  ⟨convert_ge_one_and_monotone.1 _ (by norm_num),
   convert_ge_one_and_monotone.2 _ _ rfl (by norm_num)⟩

/-! ## Claim about `resolveAllowance` (C9) -/

/-- **C9**: on a custom selection `resolveAllowance` returns
`max(1, parsedInt)` when it succeeds and fails with a validation error when
the parsed custom value is below one; an empty selection fails with a
validation error; and every selection reachable from the populated
`<select>` (the empty placeholder, `custom`, or a current plan id) yields
either a minute count `≥ 1` or a validation error — never an unhandled
exception (the embedding is a total function). -/
theorem resolveAllowance_total_spec :
    ∀ (plans : List Plan) (sel : String) (c : ℤ),
      (sel = "custom" → 1 ≤ c → resolveAllowance plans sel c = .ok (max 1 c)) ∧
      (sel = "custom" → c < 1 →
        resolveAllowance plans sel c =
          .error "Tempo custom deve ser pelo menos 1 minuto.") ∧
      (sel = "" → resolveAllowance plans sel c =
          .error "Selecione um plano para o usuário.") ∧
      ((sel = "" ∨ sel = "custom" ∨ ∃ p ∈ plans, toString p.id = sel) →
        (∃ n, resolveAllowance plans sel c = .ok n ∧ 1 ≤ n) ∨
          ∃ e, resolveAllowance plans sel c = .error e) := by
  intro plans sel c
  refine ⟨?_, ?_, ?_, ?_⟩
  · intro hsel hc
    subst hsel
    unfold resolveAllowance
    rw [if_neg (by decide), if_pos rfl, if_neg (by omega), max_eq_right hc]
  · intro hsel hc
    subst hsel
    unfold resolveAllowance
    rw [if_neg (by decide), if_pos rfl, if_pos hc]
  · intro hsel
    subst hsel
    rfl
  · intro hreach
    unfold resolveAllowance
    by_cases h1 : sel = ""
    · right
      rw [if_pos h1]
      exact ⟨_, rfl⟩
    · rw [if_neg h1]
      by_cases h2 : sel = "custom"
      · rw [if_pos h2]
        by_cases hc : c < 1
        · right
          rw [if_pos hc]
          exact ⟨_, rfl⟩
        · left
          rw [if_neg hc]
          exact ⟨c, rfl, by omega⟩
      · rw [if_neg h2]
        rcases hreach with h | h | ⟨p, hp, hid⟩
        · exact absurd h h1
        · exact absurd h h2
        · have hsome : (plans.find? (fun q => toString q.id == sel)).isSome :=
            List.find?_isSome.mpr ⟨p, hp, by simp [hid]⟩
          obtain ⟨q, hq⟩ := Option.isSome_iff_exists.mp hsome
          rw [hq]
          exact Or.inl ⟨convertPlanToMinutes q, rfl, one_le_convertPlanToMinutes q⟩

/-- Witness for `resolveAllowance_total_spec` on concrete selections. -/
theorem resolveAllowance_total_spec_witness :
    resolveAllowance [] "custom" 5 = .ok (max 1 5) ∧
    resolveAllowance [] "custom" 0 =
      .error "Tempo custom deve ser pelo menos 1 minuto." ∧
    resolveAllowance [] "" 5 = .error "Selecione um plano para o usuário." ∧
    ((∃ n, resolveAllowance [{ id := 1, name := "P", value := 30, unit := "minutes" }] "1" 0 =
        .ok n ∧ 1 ≤ n) ∨
      ∃ e, resolveAllowance [{ id := 1, name := "P", value := 30, unit := "minutes" }] "1" 0 =
        .error e) :=
  ⟨(resolveAllowance_total_spec [] "custom" 5).1 rfl (by norm_num),
   (resolveAllowance_total_spec [] "custom" 0).2.1 rfl (by norm_num),
   (resolveAllowance_total_spec [] "" 5).2.2.1 rfl,
   (resolveAllowance_total_spec [{ id := 1, name := "P", value := 30, unit := "minutes" }]
       "1" 0).2.2.2
     (Or.inr (Or.inr ⟨{ id := 1, name := "P", value := 30, unit := "minutes" },
       by simp, by decide⟩))⟩

/-! ## Claim about `deletePlan` role gating (C7) -/

/-- A concrete admin-variant state with no authenticated principal and one
plan, used to exhibit the missing gate of the second variant. -/
def estadoSemSessao : AdminState :=
  { users := [],
    plans := [{ id := 1, name := "Padrao 30 minutos", value := 30, unit := "minutes" }],
    currentUser := none }

/-- **C7 counterexample**: in the second admin variant
(`app.js:1415-1421`), `deletePlan` invoked with no authenticated principal
(hence non-admin) and a confirmed dialog deletes the plan — it mutates the
Plans collection and returns no auth error, so the claim as stated is false
for that variant. -/
theorem deletePlan_ungated_counterexample :
    estadoSemSessao.currentUser = none ∧
    estadoSemSessao.plans ≠ [] ∧
    (deletePlanUngated estadoSemSessao 1 true).1 = .deleted ∧
    (deletePlanUngated estadoSemSessao 1 true).2.plans = [] := by
  refine ⟨rfl, by decide, rfl, by decide⟩

/-- **C7** (amended): in the role-gated first admin variant
(`app.js:857-867`), `deletePlan` invoked with a non-admin principal
(including unauthenticated) returns an auth error and performs no mutation,
leaving the Plans collection unchanged; the second variant
(`app.js:1415-1421`) performs no role check and deletes whenever the dialog
is confirmed, regardless of principal. -/
theorem deletePlan_gated_fail_closed :
    ∀ (s : AdminState) (id : Nat) (confirmado : Bool),
      adminLogado s = false →
      deletePlanGated s id confirmado =
        (.authError "Apenas administradores podem deletar planos.", s) ∧
      (deletePlanGated s id confirmado).2.plans = s.plans := by
  intro s id confirmado h
  have h1 : deletePlanGated s id confirmado =
      (.authError "Apenas administradores podem deletar planos.", s) := by
    simp [deletePlanGated, h]
  exact ⟨h1, by rw [h1]⟩

/-- Witness for `deletePlan_gated_fail_closed` at the unauthenticated
concrete state. -/
theorem deletePlan_gated_fail_closed_witness :
    deletePlanGated estadoSemSessao 1 true =
      (.authError "Apenas administradores podem deletar planos.", estadoSemSessao) ∧
    (deletePlanGated estadoSemSessao 1 true).2.plans = estadoSemSessao.plans :=
  deletePlan_gated_fail_closed estadoSemSessao 1 true rfl

/-! ## Claim about `Users.create` uniqueness (C6) -/

/-- `handleCreateUser` either leaves the users collection unchanged, or
appends exactly one user whose (trimmed) username was not yet present. -/
lemma handleCreateUser_users (s : AdminState) (i : CreateInput) (now : Nat) (iso : String) :
    (handleCreateUser s i now iso).2.users = s.users ∨
    ∃ loginTime, (handleCreateUser s i now iso).2.users =
        s.users ++ [{ id := now, username := jsTrim i.username, password := i.password,
                      loginTime := loginTime, createdAt := iso, isAdmin := false }] ∧
      s.users.any (fun u => u.username == jsTrim i.username) = false := by
  unfold handleCreateUser
  split
  · exact Or.inl rfl
  · split_ifs with h1 h2 h3 h4
    · exact Or.inl rfl
    · exact Or.inl rfl
    · exact Or.inl rfl
    · exact Or.inl rfl
    · right
      exact ⟨_, rfl, by simpa using h4⟩

lemma handleCreateUser_distinct (s : AdminState) (i : CreateInput) (now : Nat)
    (iso : String) (h : distinctUsernames s.users) :
    distinctUsernames (handleCreateUser s i now iso).2.users := by
  rcases handleCreateUser_users s i now iso with h1 | ⟨lt, h1, h2⟩
  · rwa [h1]
  · rw [h1]
    unfold distinctUsernames at *
    rw [List.pairwise_append]
    refine ⟨h, List.pairwise_singleton _ _, ?_⟩
    intro a ha b hb
    simp only [List.mem_singleton] at hb
    subst hb
    have h3 : ¬ a.username = jsTrim i.username := by
      have := List.any_eq_false.mp h2 a ha
      simpa using this
    simpa using h3

lemma runCreates_distinct (ops : List (CreateInput × Nat × String)) :
    ∀ s : AdminState, distinctUsernames s.users →
      distinctUsernames (runCreates s ops).users := by
  induction ops with
  | nil => exact fun s h => h
  | cons op rest ih =>
    intro s h
    obtain ⟨i, now, iso⟩ := op
    exact ih _ (handleCreateUser_distinct s i now iso h)

lemma handleCreateUser_dup (s : AdminState) (i : CreateInput) (now : Nat) (iso : String)
    (hdup : s.users.any (fun u => u.username == jsTrim i.username) = true) :
    ∃ e, handleCreateUser s i now iso = (.failure e, s) := by
  unfold handleCreateUser
  split
  · exact ⟨_, rfl⟩
  · split_ifs with h1 h2 h3
    · exact ⟨_, rfl⟩
    · exact ⟨_, rfl⟩
    · exact ⟨_, rfl⟩
    · exact ⟨_, rfl⟩

/-- **C6**: starting from a state in which all usernames are distinct, any
sequence of `handleCreateUser` calls preserves the distinctness invariant,
and a create whose (case-sensitively compared) username is already present
is rejected with a validation error and adds no user. -/
theorem users_username_unique :
    ∀ (s : AdminState) (ops : List (CreateInput × Nat × String)),
      distinctUsernames s.users →
      distinctUsernames (runCreates s ops).users ∧
      ∀ (i : CreateInput) (now : Nat) (iso : String),
        s.users.any (fun u => u.username == jsTrim i.username) = true →
        ∃ e, handleCreateUser s i now iso = (.failure e, s) :=
  fun s ops h =>
    ⟨runCreates_distinct ops s h,
     fun i now iso hdup => handleCreateUser_dup s i now iso hdup⟩

/-- The admin-variant state right after first load: the default admin user,
the default plans, and the admin logged in. -/
def usuarioAdminPadrao : UserRec :=
  { id := 1, username := "admin", password := "admin123", loginTime := 60,
    createdAt := "t0", isAdmin := true }

def estadoInicialAdmin : AdminState :=
  { users := [usuarioAdminPadrao],
    plans := [{ id := 1, name := "Padrao 30 minutos", value := 30, unit := "minutes" },
              { id := 2, name := "Diario", value := 1, unit := "days" },
              { id := 3, name := "Semanal", value := 1, unit := "weeks" },
              { id := 4, name := "Mensal", value := 1, unit := "months" }],
    currentUser := some usuarioAdminPadrao }

/-- Witness for `users_username_unique`: creating `bob` and then ` bob `
(which trims to the duplicate) keeps usernames distinct, and a create that
reuses `admin` is rejected without touching the state. -/
theorem users_username_unique_witness :
    distinctUsernames (runCreates estadoInicialAdmin
      [({ username := "bob", password := "senha", selectedPlanId := "custom",
          customParsed := 30 }, 2, "t2"),
       ({ username := " bob ", password := "senha", selectedPlanId := "custom",
          customParsed := 30 }, 3, "t3")]).users ∧
    ∃ e, handleCreateUser estadoInicialAdmin
        { username := "admin", password := "abcd", selectedPlanId := "custom",
          customParsed := 30 } 9 "t9" = (.failure e, estadoInicialAdmin) :=
  ⟨(users_username_unique estadoInicialAdmin
      [({ username := "bob", password := "senha", selectedPlanId := "custom",
          customParsed := 30 }, 2, "t2"),
       ({ username := " bob ", password := "senha", selectedPlanId := "custom",
          customParsed := 30 }, 3, "t3")] (by decide)).1,
   (users_username_unique estadoInicialAdmin [] (by decide)).2
     { username := "admin", password := "abcd", selectedPlanId := "custom",
       customParsed := 30 } 9 "t9" (by decide)⟩

/-! ## Claim about checkout payload validation (C8) -/

/-- Pushing the message construction through `find?` on the mapped
required-field checks. -/
lemma find?_fail_map (l : List String) (d : DadosCompra) :
    ((l.map (fun f => (!isBlank (getField d f), "Campo " ++ f ++ " obrigatório"))).find?
        (fun c => !c.1)) =
      (l.find? (fun f => isBlank (getField d f))).map
        (fun f => (!isBlank (getField d f), "Campo " ++ f ++ " obrigatório")) := by
  induction l with
  | nil => rfl
  | cons a t ih =>
    by_cases h : isBlank (getField d a) = true <;>
      simp [List.find?_cons, h, ih]

/-- **C8**: `validarDadosCompra` accepts a payload only when every required
contact/payment field is non-blank, the card number is exactly 16 digits
after stripping whitespace, the expiry matches `MM/YY` and the CVV is
exactly 3 digits; and on any violation it returns the validation error of
the first failing check in source order (first-fail-wins, never an
aggregate) — it coincides with the spec-side `primeiraFalha` over the
ordered check list. -/
theorem checkout_validation_first_fail :
    ∀ d : DadosCompra,
      validarDadosCompra d = primeiraFalha (checkoutChecks d) ∧
      (validarDadosCompra d = .valido →
        (∀ f ∈ requiredFields, isBlank (getField d f) = false) ∧
        cartaoValido d.cartao = true ∧ validadeValida d.validade = true ∧
        cvvValido d.cvv = true) := by
  intro d
  constructor
  · unfold validarDadosCompra primeiraFalha checkoutChecks
    rw [List.find?_append, find?_fail_map]
    cases hf : requiredFields.find? (fun f => isBlank (getField d f)) with
    | some f =>
      have hb : isBlank (getField d f) = true := by simpa using List.find?_some hf
      simp [hb]
    | none =>
      by_cases h1 : validarEmail d.email = true <;>
        by_cases h2 : cartaoValido d.cartao = true <;>
        by_cases h3 : validadeValida d.validade = true <;>
        by_cases h4 : cvvValido d.cvv = true <;>
        simp [List.find?_cons, h1, h2, h3, h4]
  · intro hv
    unfold validarDadosCompra at hv
    cases hf : requiredFields.find? (fun f => isBlank (getField d f)) with
    | some f =>
      rw [hf] at hv
      exact absurd hv (by simp)
    | none =>
      rw [hf] at hv
      split_ifs at hv with h1 h2 h3 h4
      refine ⟨?_, by simpa using h2, by simpa using h3, by simpa using h4⟩
      intro f hfm
      have := List.find?_eq_none.mp hf f hfm
      simpa using this

/-- A concrete payload passing every check, shared by the C8 and C2
witnesses. -/
def dadosDemo : DadosCompra :=
  { nome := "Ana Silva", email := "ana@example.com", telefone := "11999990000",
    endereco := "Rua A, 1", cidade := "Sao Paulo", cep := "01000-000",
    cartao := "1234 5678 9012 3456", validade := "12/26", cvv := "123" }

/-- Witness for `checkout_validation_first_fail` at the valid demo
payload. -/
theorem checkout_validation_first_fail_witness :
    validarDadosCompra dadosDemo = primeiraFalha (checkoutChecks dadosDemo) ∧
    ((∀ f ∈ requiredFields, isBlank (getField dadosDemo f) = false) ∧
      cartaoValido dadosDemo.cartao = true ∧ validadeValida dadosDemo.validade = true ∧
      cvvValido dadosDemo.cvv = true) :=
  ⟨(checkout_validation_first_fail dadosDemo).1,
   (checkout_validation_first_fail dadosDemo).2 (by decide)⟩

/-! ## Claim about checkout decline (C2) -/

/-- **C2**: for any state and any payload passing validation, a declined
payment outcome leaves every Item's availability flag (the whole
`produtores` collection), the cart contents and the order list unchanged —
no Order is created. -/
theorem checkout_decline_frame :
    ∀ (s : ShopState) (u : Usuario) (d : DadosCompra) (pid nowIso : String),
      validarDadosCompra d = .valido →
      (handleCheckoutForm s u d pid nowIso false).produtores = s.produtores ∧
      (handleCheckoutForm s u d pid nowIso false).carrinho = s.carrinho ∧
      (handleCheckoutForm s u d pid nowIso false).pedidos = s.pedidos := by
  intro s u d pid nowIso hv
  have h : handleCheckoutForm s u d pid nowIso false = s := by
    unfold handleCheckoutForm
    rw [hv]
    rfl
  rw [h]
  exact ⟨rfl, rfl, rfl⟩

/-- Witness for `checkout_decline_frame` at the initial state and the valid
demo payload. -/
theorem checkout_decline_frame_witness :
    (handleCheckoutForm initialShopState adminDemo dadosDemo "pedido_1" "t" false).produtores =
      initialShopState.produtores ∧
    (handleCheckoutForm initialShopState adminDemo dadosDemo "pedido_1" "t" false).carrinho =
      initialShopState.carrinho ∧
    (handleCheckoutForm initialShopState adminDemo dadosDemo "pedido_1" "t" false).pedidos =
      initialShopState.pedidos :=
  checkout_decline_frame initialShopState adminDemo dadosDemo "pedido_1" "t" (by decide)

/-! ## Claim about the persisted-document loaders (C5) -/

/-- **C5 counterexample**: the claim "loading the persisted document never
throws to the caller" is false for `AppState.loadUserData`
(`app.js:9-15`): on the malformed stored string `"{"` the unguarded
`JSON.parse` throws, and the exception propagates to the caller. -/
theorem loadUserData_throws_counterexample :
    loadUserData "2026-01-01" (some "\x7b") = .error "SyntaxError: JSON.parse" := by
  rfl

/-- **C5** (amended): the shop loader `carregarDados` (`app.js:1614-1632`)
never throws — on an absent key, a malformed stored string, or a
shape-invalid document it returns the generated default document
(`inicializarDadosParaao`); the admin loader `loadUserData` (`app.js:9-15`)
falls back to the generated defaults only when the key is absent (or the
stored string empty) and propagates the `JSON.parse` exception on a
malformed stored string. -/
theorem loader_fallback_amended :
    ∀ (now s : String),
      carregarDados none = .defaults inicializarDadosParaao ∧
      loadUserData now none = .ok (getDefaultUsers now) ∧
      (s ≠ "" → parseJson s = none →
        carregarDados (some s) = .defaults inicializarDadosParaao ∧
        loadUserData now (some s) = .error "SyntaxError: JSON.parse") ∧
      (s ≠ "" → ∀ j, parseJson s = some j → temEstruturaValida j = false →
        carregarDados (some s) = .defaults inicializarDadosParaao) := by
  intro now s
  refine ⟨rfl, rfl, fun hne hp => ⟨?_, ?_⟩, fun hne j hp hshape => ?_⟩
  · simp [carregarDados, hne, hp]
  · simp [loadUserData, hne, hp]
  · simp [carregarDados, hne, hp, hshape]

/-- Witness for `loader_fallback_amended` on a malformed stored string and
on a parseable document of the wrong shape. -/
theorem loader_fallback_amended_witness :
    (carregarDados none = .defaults inicializarDadosParaao ∧
      loadUserData "t" none = .ok (getDefaultUsers "t")) ∧
    (carregarDados (some "nao-json") = .defaults inicializarDadosParaao ∧
      loadUserData "t" (some "nao-json") = .error "SyntaxError: JSON.parse") ∧
    carregarDados (some "42") = .defaults inicializarDadosParaao := by
  obtain ⟨h1, h2, h3, _⟩ := loader_fallback_amended "t" "nao-json"
  obtain ⟨_, _, _, h4⟩ := loader_fallback_amended "t" "42"
  exact ⟨⟨h1, h2⟩, h3 (by decide) rfl, h4 (by decide) (.num 42) rfl rfl⟩

/-! ## Claim about checkout success (C1) -/

lemma find?_item_cons_pos (a : Item) (t : List Item) (iid : String)
    (h : (a.id == iid) = true) :
    (a :: t).find? (fun i => i.id == iid) = some a :=
  @List.find?_cons_of_pos _ (fun i => i.id == iid) a t h

lemma find?_item_cons_neg (a : Item) (t : List Item) (iid : String)
    (h : ¬ (a.id == iid) = true) :
    (a :: t).find? (fun i => i.id == iid) = t.find? (fun i => i.id == iid) :=
  @List.find?_cons_of_neg _ (fun i => i.id == iid) a t h

lemma find?_prod_cons_pos (p : Produtor) (t : List Produtor) (pid : String)
    (h : (p.id == pid) = true) :
    (p :: t).find? (fun q => q.id == pid) = some p :=
  @List.find?_cons_of_pos _ (fun q => q.id == pid) p t h

lemma find?_prod_cons_neg (p : Produtor) (t : List Produtor) (pid : String)
    (h : ¬ (p.id == pid) = true) :
    (p :: t).find? (fun q => q.id == pid) = t.find? (fun q => q.id == pid) :=
  @List.find?_cons_of_neg _ (fun q => q.id == pid) p t h

lemma marcarItem_find_self (l : List Item) (iid : String) (it : Item)
    (h : l.find? (fun i => i.id == iid) = some it) :
    (marcarItemIndisponivel l iid).find? (fun i => i.id == iid) =
      some { it with disponivel := false } := by
  induction l with
  | nil => simp at h
  | cons a t ih =>
    by_cases ha : (a.id == iid) = true
    · rw [find?_item_cons_pos a t iid ha] at h
      injection h with h'
      subst h'
      simp only [marcarItemIndisponivel, if_pos ha]
      exact find?_item_cons_pos _ t iid ha
    · rw [find?_item_cons_neg a t iid ha] at h
      simp only [marcarItemIndisponivel, if_neg ha]
      rw [find?_item_cons_neg a _ iid ha]
      exact ih h

lemma marcarItem_find_other (l : List Item) (jid iid : String) (hne : jid ≠ iid) :
    (marcarItemIndisponivel l jid).find? (fun i => i.id == iid) =
      l.find? (fun i => i.id == iid) := by
  induction l with
  | nil => rfl
  | cons a t ih =>
    by_cases haj : (a.id == jid) = true
    · simp only [marcarItemIndisponivel, if_pos haj]
      by_cases hai : (a.id == iid) = true
      · exact absurd ((beq_iff_eq.mp haj).symm.trans (beq_iff_eq.mp hai)) hne
      · rw [find?_item_cons_neg { a with disponivel := false } t iid hai,
          find?_item_cons_neg a t iid hai]
    · simp only [marcarItemIndisponivel, if_neg haj]
      by_cases hai : (a.id == iid) = true
      · rw [find?_item_cons_pos a _ iid hai, find?_item_cons_pos a t iid hai]
      · rw [find?_item_cons_neg a _ iid hai, find?_item_cons_neg a t iid hai]
        exact ih

lemma marcar_lookup_self (ps : List Produtor) (pid iid : String) (it : Item)
    (h : lookupEstoque ps pid iid = some it) :
    lookupEstoque (marcarIndisponivel ps pid iid) pid iid =
      some { it with disponivel := false } := by
  induction ps with
  | nil => simp [lookupEstoque] at h
  | cons p t ih =>
    by_cases hp : (p.id == pid) = true
    · unfold lookupEstoque at h ⊢
      rw [find?_prod_cons_pos p t pid hp, Option.some_bind] at h
      simp only [marcarIndisponivel, if_pos hp]
      rw [find?_prod_cons_pos
          { p with listaDeItens := marcarItemIndisponivel p.listaDeItens iid } t pid hp,
        Option.some_bind]
      exact marcarItem_find_self _ _ _ h
    · unfold lookupEstoque at h ⊢
      rw [find?_prod_cons_neg p t pid hp] at h
      simp only [marcarIndisponivel, if_neg hp]
      rw [find?_prod_cons_neg p _ pid hp]
      exact ih h

lemma marcar_lookup_other (ps : List Produtor) (qid jid pid iid : String)
    (h : qid ≠ pid ∨ jid ≠ iid) :
    lookupEstoque (marcarIndisponivel ps qid jid) pid iid = lookupEstoque ps pid iid := by
  induction ps with
  | nil => rfl
  | cons p t ih =>
    by_cases hpq : (p.id == qid) = true
    · simp only [marcarIndisponivel, if_pos hpq]
      by_cases hpp : (p.id == pid) = true
      · have hji : jid ≠ iid := by
          rcases h with h | h
          · exact absurd ((beq_iff_eq.mp hpq).symm.trans (beq_iff_eq.mp hpp)) h
          · exact h
        unfold lookupEstoque
        rw [find?_prod_cons_pos
            { p with listaDeItens := marcarItemIndisponivel p.listaDeItens jid } t pid hpp,
          find?_prod_cons_pos p t pid hpp, Option.some_bind, Option.some_bind]
        exact marcarItem_find_other _ _ _ hji
      · unfold lookupEstoque
        rw [find?_prod_cons_neg
            { p with listaDeItens := marcarItemIndisponivel p.listaDeItens jid } t pid hpp,
          find?_prod_cons_neg p t pid hpp]
    · simp only [marcarIndisponivel, if_neg hpq]
      by_cases hpp : (p.id == pid) = true
      · unfold lookupEstoque
        rw [find?_prod_cons_pos p _ pid hpp, find?_prod_cons_pos p t pid hpp]
      · unfold lookupEstoque
        rw [find?_prod_cons_neg p _ pid hpp, find?_prod_cons_neg p t pid hpp]
        exact ih

lemma marcar_lookup_pres (ps : List Produtor) (qid jid pid iid : String) (it : Item)
    (h : lookupEstoque ps pid iid = some it) :
    ∃ it', lookupEstoque (marcarIndisponivel ps qid jid) pid iid = some it' ∧
      (it' = it ∨ it' = { it with disponivel := false }) := by
  by_cases hq : qid = pid
  · by_cases hj : jid = iid
    · subst hq
      subst hj
      exact ⟨_, marcar_lookup_self ps qid jid it h, Or.inr rfl⟩
    · exact ⟨it, by rw [marcar_lookup_other ps qid jid pid iid (Or.inr hj)]; exact h,
        Or.inl rfl⟩
  · exact ⟨it, by rw [marcar_lookup_other ps qid jid pid iid (Or.inl hq)]; exact h,
      Or.inl rfl⟩

/-- **C1**: for a cart holding exactly the lines of two backed items and an
approved payment outcome, after checkout both backing Items are marked
unavailable, exactly one new Order is appended whose lines are the two
add-time snapshots and whose total is the sum of their prices, and the cart
is empty. -/
theorem checkout_success_atomicity :
    ∀ (s : ShopState) (u : Usuario) (d : DadosCompra) (pid nowIso : String)
      (a b : CartLine) (ia ib : Item),
      s.carrinho = [a, b] →
      lookupEstoque s.produtores a.produtorId a.id = some ia →
      lookupEstoque s.produtores b.produtorId b.id = some ib →
      (∃ ia', lookupEstoque (processarPagamento s u d pid nowIso true).produtores
          a.produtorId a.id = some ia' ∧ ia'.disponivel = false) ∧
      (∃ ib', lookupEstoque (processarPagamento s u d pid nowIso true).produtores
          b.produtorId b.id = some ib' ∧ ib'.disponivel = false) ∧
      (processarPagamento s u d pid nowIso true).pedidos =
        s.pedidos ++ [{ id := pid, usuarioId := u.id, usuarioNome := d.nome,
                        usuarioEmail := d.email, itens := [a, b],
                        total := a.preco + b.preco, data := nowIso,
                        status := "confirmado", endereco := d.endereco,
                        cidade := d.cidade }] ∧
      (processarPagamento s u d pid nowIso true).carrinho = [] := by
  intro s u d pid nowIso a b ia ib hc hA hB
  have hprod : (processarPagamento s u d pid nowIso true).produtores =
      marcarIndisponivel (marcarIndisponivel s.produtores a.produtorId a.id)
        b.produtorId b.id := by
    simp [processarPagamento, finalizarCompraComSucesso, salvarDados, hc]
  refine ⟨?_, ?_, ?_, ?_⟩
  · -- item A: marked by the first pass, preserved (or re-marked) by the second
    have h1 := marcar_lookup_self s.produtores a.produtorId a.id ia hA
    obtain ⟨it', h2, h3⟩ :=
      marcar_lookup_pres (marcarIndisponivel s.produtores a.produtorId a.id)
        b.produtorId b.id a.produtorId a.id _ h1
    refine ⟨it', by rw [hprod]; exact h2, ?_⟩
    rcases h3 with h3 | h3 <;> rw [h3]
  · -- item B: survives the first pass, marked by the second
    obtain ⟨ib', h1, _⟩ :=
      marcar_lookup_pres s.produtores a.produtorId a.id b.produtorId b.id ib hB
    have h2 := marcar_lookup_self (marcarIndisponivel s.produtores a.produtorId a.id)
      b.produtorId b.id ib' h1
    exact ⟨{ ib' with disponivel := false }, by rw [hprod]; exact h2, rfl⟩
  · simp [processarPagamento, finalizarCompraComSucesso, salvarDados, hc,
      calcularTotalCarrinho]
  · simp [processarPagamento, finalizarCompraComSucesso, salvarDados]

/-- The cart snapshot of demo item `item_001`, as `adicionarAoCarrinho`
builds it. -/
def linhaA : CartLine :=
  { id := "item_001", nome := "Maçã Orgânica",
    descricao := "Maçã vermelha fresca, colheita do mês", preco := 25 / 2,
    produtorId := "produtor_001", disponivel := true,
    produtorNome := "Fazenda Orgânica Verde" }

/-- The cart snapshot of demo item `item_003`. -/
def linhaB : CartLine :=
  { id := "item_003", nome := "Queijo Meia Cura", descricao := "Queijo artesanal, 500g",
    preco := 35, produtorId := "produtor_002", disponivel := true,
    produtorNome := "Laticínios Naturais" }

/-- The demo state with a logged-in principal and the two lines in the
cart. -/
def estadoComCarrinho : ShopState :=
  { toShopCore := { inicializarDadosParaao with
      usuarioLogado := some adminDemo, carrinho := [linhaA, linhaB] },
    stored := inicializarDadosParaao }

/-- Witness for `checkout_success_atomicity` on the demo data. -/
theorem checkout_success_atomicity_witness :
    (∃ ia', lookupEstoque (processarPagamento estadoComCarrinho adminDemo dadosDemo
          "pedido_9" "t9" true).produtores linhaA.produtorId linhaA.id = some ia' ∧
        ia'.disponivel = false) ∧
    (∃ ib', lookupEstoque (processarPagamento estadoComCarrinho adminDemo dadosDemo
          "pedido_9" "t9" true).produtores linhaB.produtorId linhaB.id = some ib' ∧
        ib'.disponivel = false) ∧
    (processarPagamento estadoComCarrinho adminDemo dadosDemo "pedido_9" "t9"
        true).pedidos =
      estadoComCarrinho.pedidos ++
        [{ id := "pedido_9", usuarioId := adminDemo.id, usuarioNome := dadosDemo.nome,
           usuarioEmail := dadosDemo.email, itens := [linhaA, linhaB],
           total := linhaA.preco + linhaB.preco, data := "t9",
           status := "confirmado", endereco := dadosDemo.endereco,
           cidade := dadosDemo.cidade }] ∧
    (processarPagamento estadoComCarrinho adminDemo dadosDemo "pedido_9" "t9"
        true).carrinho = [] :=
  checkout_success_atomicity estadoComCarrinho adminDemo dadosDemo "pedido_9" "t9"
    linhaA linhaB linhaA.toItem linhaB.toItem rfl (by rfl) (by rfl)

/-! ## Claim about the unauthenticated-cart invariant (C10) -/

/-- In one core document: no principal implies an empty cart. -/
def CartInv (c : ShopCore) : Prop := c.usuarioLogado = none → c.carrinho = []

/-- The invariant on both the in-memory state and the persisted copy. -/
def FullInv (s : ShopState) : Prop := CartInv s.toShopCore ∧ CartInv s.stored

lemma reachable_fullInv (s : ShopState) (h : Reachable s) : FullInv s := by
  induction h with
  | init => exact ⟨fun _ => rfl, fun _ => rfl⟩
  | login s e p hr ih =>
    unfold handleLoginForm
    split_ifs with h1
    · exact ih
    · split
      · exact ih
      · split_ifs with h2
        · exact ih
        · exact ⟨fun hnone => Option.noConfusion hnone,
            fun hnone => Option.noConfusion hnone⟩
  | registro s n e p c uid hr ih =>
    unfold handleRegistroForm
    split_ifs with h1 h2 h3 h4 h5
    · exact ih
    · exact ih
    · exact ih
    · exact ih
    · exact ih
    · exact ⟨fun hnone => Option.noConfusion hnone, fun hnone => Option.noConfusion hnone⟩
  | adminLogin s e p hr ih =>
    unfold handleLoginAdminForm
    split_ifs with h1
    · exact ih
    · split
      · exact ih
      · split_ifs with h2 h3
        · exact ih
        · exact ih
        · exact ⟨fun hnone => Option.noConfusion hnone,
            fun hnone => Option.noConfusion hnone⟩
  | logout s hr ih => exact ⟨fun _ => rfl, fun _ => rfl⟩
  | addCarrinho s iid hr ih =>
    unfold adicionarAoCarrinho
    split_ifs with h1 h2
    · exact ih
    · split
      · exact ih
      · exact ih
    · split
      · exact ih
      · exact ⟨fun hnone => absurd (by rw [hnone]; rfl) h1, ih.2⟩
  | removeCarrinho s iid hr ih =>
    refine ⟨fun hnone => ?_, ih.2⟩
    have h1 : s.carrinho = [] := ih.1 hnone
    simp [removerDoCarrinho, h1]
  | checkout s u d pid nowIso aprovado hr hu ih =>
    unfold handleCheckoutForm
    split
    · exact ih
    · unfold processarPagamento
      split_ifs with h1
      · exact ⟨fun _ => rfl, fun _ => rfl⟩
      · exact ih
  | ui s hr ih =>
    unfold atualizarUI
    split_ifs with h1
    · exact ih
    · exact ⟨fun _ => rfl, ih.2⟩
  | novoProdutor s n e pid hr ih =>
    unfold handleNovoProductorForm
    split_ifs with h1 h2 h3 h4
    · exact ih
    · exact ih
    · exact ih
    · exact ih
    · exact ⟨ih.1, ih.1⟩
  | novoItem s pid n dsc preco iid hr ih =>
    unfold handleNovoItemForm
    split_ifs with h1 h2 h3
    · exact ih
    · exact ih
    · exact ih
    · split
      · exact ih
      · exact ⟨ih.1, ih.1⟩
  | rmProdutor s pid c hr ih =>
    unfold removerProdutor
    split_ifs with h1 h2
    · exact ih
    · exact ih
    · exact ⟨ih.1, ih.1⟩
  | rmItem s pid iid hr ih =>
    unfold removerItemProdutor
    split_ifs with h1
    · exact ih
    · split
      · exact ih
      · exact ⟨ih.1, ih.1⟩
  | configPag s p sk mk hr ih =>
    unfold handleConfigPagamentoForm
    split_ifs <;> exact ih
  | reload s hr ih =>
    unfold recarregar atualizarUI
    split_ifs with h1
    · exact ⟨ih.2, ih.2⟩
    · exact ⟨fun _ => rfl, ih.2⟩

/-- **C10**: in the shop variant every principal-clearing path (explicit
logout, and a UI refresh observing no authenticated user) empties the cart,
so in every state reachable from the first load an unauthenticated session
implies an empty cart. -/
theorem unauthenticated_implies_empty_cart :
    ∀ s : ShopState, Reachable s → s.usuarioLogado = none → s.carrinho = [] :=
  fun s h => (reachable_fullInv s h).1

/-- Witness for `unauthenticated_implies_empty_cart` right after a
logout. -/
theorem unauthenticated_implies_empty_cart_witness :
    (handleLogout initialShopState).carrinho = [] :=
  unauthenticated_implies_empty_cart (handleLogout initialShopState)
    (Reachable.logout initialShopState Reachable.init) rfl

end LojaVerify
